import Mathlib

/-!
Shallow embedding of the django-superapp-whatsapp webhook/dispatch core.

Python conventions used throughout the embedding:
- a Python value that may be `None` is an `Option`;
- Python truthiness of a string (`if s:`) is `s ≠ ""`; of an optional string it is
  `o ≠ none ∧ o ≠ some ""`;
- a Python function that may raise is embedded as `Except PyExc _`; a function whose
  body is wrapped in a `try/except` that converts every exception into a return value
  is embedded as a total function.
-/

namespace Whatsapp

/-- A Python exception value (we only track the message text). -/
structure PyExc where
  msg : String
deriving DecidableEq, Repr

/-- Python truthiness of an `Option String` (`None` and `""` are falsy). -/
def truthy : Option String → Bool
  | none => false
  | some s => s ≠ ""

/-- Python `a or b` on optional strings: `b` when `a` is falsy. -/
def orStr (a b : Option String) : Option String :=
  if truthy a then a else b

/-- Python `str.isdigit`: true iff the string is nonempty and every character is a digit. -/
def str_isdigit (s : String) : Bool :=
  decide (0 < s.length) && s.data.all Char.isDigit

/-! ## src/models/contact.py -/

/-- `normalize_phone_number` from `src/models/contact.py`.
`if not phone_number: return phone_number` returns falsy inputs (Python `None`
or the empty string) unchanged; otherwise every non-digit character is removed. -/
def normalize_phone_number : Option String → Option String
  | none => none
  | some s => if s = "" then some s else some (String.mk (s.data.filter Char.isDigit))

/-- The reasons `validate_phone_number` can raise `ValidationError`. -/
inductive ValidationError where
  | onlyDigits
  | lengthRange
  | countryCode
deriving DecidableEq, Repr

/-- `validate_phone_number` from `src/models/contact.py`: raises unless the value
`isdigit()` and its length lies in `[7, 15]` (the final `len < 3` check is then
unreachable but is embedded as in the source). -/
def validate_phone_number (value : String) : Except ValidationError Unit :=
  if !(str_isdigit value) then .error .onlyDigits
  else if value.length < 7 || value.length > 15 then .error .lengthRange
  else if value.length < 3 then .error .countryCode
  else .ok ()

/-! ## src/services/waha.py -/

/-- A JSON value, as far as the WAHA request payloads need. -/
inductive JsonVal where
  | str (s : String)
  | bool (b : Bool)
  | arr (l : List JsonVal)
  | obj (l : List (String × JsonVal))

/-- The parsed JSON body of a WAHA API response (`response.json()`), restricted to
the keys the repository reads: `success`, `error`, `id`. -/
structure WahaResult where
  success : Option Bool
  error : Option String
  id : Option String
deriving DecidableEq, Repr

/-- One HTTP request as issued by `WAHAService._make_request`. -/
structure WahaRequest where
  url : String
  method : String
  data : Option (List (String × JsonVal))

/-- What the network does with one request: either an HTTP response (whose body may
fail to parse as JSON, which `response.json()` raises on) or a transport exception. -/
inductive HttpOutcome where
  | response (status : Nat) (text : String) (json : Except PyExc WahaResult)
  | exc (e : PyExc)

/-- The network environment a WAHA call runs against. -/
def HttpEnv := WahaRequest → HttpOutcome

/-- `WAHAService` state: `__init__` strips trailing slashes off the endpoint. -/
structure WAHAService where
  endpoint : String
  username : String
  password : String
  session : String
deriving Repr

/-- `WAHAService.__init__`. -/
def WAHAService.init (endpoint username password session : String) : WAHAService :=
  ⟨endpoint.dropRightWhile (· = '/'), username, password, session⟩

/-- The URL built by `_make_request`: `f"{self.endpoint}/api/{endpoint}"`. -/
def WAHAService.request_url (svc : WAHAService) (path : String) : String :=
  svc.endpoint ++ "/api/" ++ path

/-- `WAHAService._make_request`: issues the request and converts a non-(200|201)
response, a JSON-parse failure, a transport exception, or an unsupported HTTP
method (the in-`try` `raise ValueError`) into `{"success": False, "error": ...}`.
The whole body is one `try/except`, so the embedding is a total function: no
exception escapes this boundary. -/
def WAHAService.make_request (svc : WAHAService) (path method : String)
    (data : Option (List (String × JsonVal))) (env : HttpEnv) : WahaResult :=
  if method = "GET" ∨ method = "POST" ∨ method = "PUT" then
    match env ⟨svc.request_url path, method, data⟩ with
    | .exc e => ⟨some false, some e.msg, none⟩
    | .response status text json =>
      if status = 200 ∨ status = 201 then
        match json with
        | .ok r => r
        | .error e => ⟨some false, some e.msg, none⟩
      else ⟨some false, some ("HTTP " ++ toString status ++ ": " ++ text), none⟩
  else
    ⟨some false, some ("Unsupported HTTP method: " ++ method), none⟩

/-- The chat-id formatting repeated at the top of every `send_*` method:
`if chat_id and '@' not in chat_id: chat_id = chat_id.replace('+','').replace(' ','') + "@c.us"`. -/
def format_chat_id (chat_id : String) : String :=
  if chat_id ≠ "" ∧ ¬ (chat_id.contains '@') then
    (chat_id.replace "+" "").replace " " "" ++ "@c.us"
  else chat_id

/-- `WAHAService.send_text`. -/
def WAHAService.send_text (svc : WAHAService) (chat_id text : String)
    (link_preview : Bool) (env : HttpEnv) : WahaResult :=
  let cid := format_chat_id chat_id
  svc.make_request "sendText" "POST"
    (some [("chatId", .str cid), ("text", .str text),
           ("linkPreview", .bool link_preview), ("session", .str svc.session)]) env

/-- `WAHAService.send_image`. -/
def WAHAService.send_image (svc : WAHAService) (chat_id image_url : String)
    (caption : Option String) (env : HttpEnv) : WahaResult :=
  let cid := format_chat_id chat_id
  svc.make_request "sendImage" "POST"
    (some [("chatId", .str cid), ("image", .str image_url),
           ("caption", .str (if truthy caption then caption.getD "" else "")),
           ("session", .str svc.session)]) env

/-- `WAHAService.send_document`. -/
def WAHAService.send_document (svc : WAHAService) (chat_id document_url : String)
    (filename : Option String) (env : HttpEnv) : WahaResult :=
  let cid := format_chat_id chat_id
  svc.make_request "sendDocument" "POST"
    (some [("chatId", .str cid), ("document", .str document_url),
           ("filename", .str (if truthy filename then filename.getD "" else "document")),
           ("session", .str svc.session)]) env

/-- `WAHAService.send_video`. -/
def WAHAService.send_video (svc : WAHAService) (chat_id video_url : String)
    (caption : Option String) (env : HttpEnv) : WahaResult :=
  let cid := format_chat_id chat_id
  svc.make_request "sendVideo" "POST"
    (some [("chatId", .str cid), ("video", .str video_url),
           ("caption", .str (if truthy caption then caption.getD "" else "")),
           ("session", .str svc.session)]) env

/-- `WAHAService.send_audio`. -/
def WAHAService.send_audio (svc : WAHAService) (chat_id audio_url : String)
    (env : HttpEnv) : WahaResult :=
  let cid := format_chat_id chat_id
  svc.make_request "sendAudio" "POST"
    (some [("chatId", .str cid), ("audio", .str audio_url),
           ("session", .str svc.session)]) env

/-- `WAHAService.configure_webhooks`: `events=None` defaults to `["message"]`,
and the session config is PUT to `sessions/{session}`. -/
def WAHAService.configure_webhooks (svc : WAHAService) (webhook_url : String)
    (events : Option (List String)) (env : HttpEnv) : WahaResult :=
  let evts := events.getD ["message"]
  svc.make_request ("sessions/" ++ svc.session) "PUT"
    (some [("config", .obj [("webhooks",
      .arr [.obj [("url", .str webhook_url),
                  ("events", .arr (evts.map .str))]])])]) env

/-- An outcome is a failure at the HTTP level: a transport exception, or a
response whose status is not 2xx. -/
def failure_outcome : HttpOutcome → Prop
  | .exc _ => True
  | .response status _ _ => ¬ (200 ≤ status ∧ status ≤ 299)

/-- The uniform failure shape `{"success": False, "error": <reason>}`. -/
def uniform_failure (r : WahaResult) : Prop :=
  r.success = some false ∧ r.error.isSome = true

/-- A fixed environment in which every request hits a transport exception
(used as the concrete instance in witness statements). -/
def envDown : HttpEnv := fun _ => .exc ⟨"Connection refused"⟩

/-- A fixed concretely-configured WAHA service (used in witness statements). -/
def svc0 : WAHAService := WAHAService.init "http://localhost:3000/" "admin" "secret" "default"

/-! ## src/views/official_api_webhook.py — webhook (GET branch) -/

/-- The columns of the `PhoneNumber` model this core reads
(src/models/phone_number.py). Blank/null text columns are `Option String`. -/
structure PhoneNumberRec where
  phone_number : String
  api_type : String
  phone_number_id : Option String
  access_token : String
  waha_endpoint : Option String
  waha_username : Option String
  waha_password : Option String
  waha_session : String
  is_active : Bool
  verify_token : String
  webhook_token : String
deriving DecidableEq, Repr

/-- A Django `HttpResponse`: body text and status code. -/
structure HttpResponse where
  body : String
  status : Nat
deriving DecidableEq, Repr

/-- The query parameters read by the GET branch of `webhook`
(`request.GET.get` returns `None` when the key is absent). -/
structure GetParams where
  mode : Option String
  verify_token : Option String
  challenge : Option String
deriving DecidableEq, Repr

/-- How Django renders `HttpResponse(challenge)` when `challenge` is `None`:
`str(None)` is the body `"None"`. -/
def optBody : Option String → String
  | none => "None"
  | some s => s

/-- `PhoneNumber.objects.get(webhook_token=..., api_type='official')` over a list
store; `DoesNotExist` is `none` (`webhook_token` is unique per record, so at most
one row matches). -/
def find_phone_by_webhook_token (store : List PhoneNumberRec) (tok : String) :
    Option PhoneNumberRec :=
  store.find? (fun pn => pn.webhook_token == tok && pn.api_type == "official")

/-- The GET branch of `webhook` in src/views/official_api_webhook.py: 403 when the
webhook token matches no official phone number, 403 when `hub.verify_token` differs
from the record's `verify_token`, echo of `hub.challenge` when `hub.mode ==
"subscribe"`, and 403 otherwise. -/
def webhook_get (store : List PhoneNumberRec) (webhook_token : String)
    (params : GetParams) : HttpResponse :=
  match find_phone_by_webhook_token store webhook_token with
  | none => ⟨"Invalid webhook token", 403⟩
  | some pn =>
    if params.verify_token ≠ some pn.verify_token then
      ⟨"Verification failed: invalid token", 403⟩
    else if params.mode = some "subscribe" then
      ⟨optBody params.challenge, 200⟩
    else
      ⟨"Verification failed: invalid mode", 403⟩

/-- A fixed official-API phone number record (used in witness statements). -/
def pn0 : PhoneNumberRec :=
  ⟨"40777777777", "official", some "1234567890", "tok-abc", none, none, none,
   "default", true, "verify-123", "hook-xyz"⟩

/-! ## src/models/message.py — the Message row, and
     src/views/official_api_webhook.py — process_status_update -/

/-- The `conversation` object of an official status update, restricted to the keys
the code reads (`id`, `expiration_timestamp`, `origin.type`). `none` stands for an
absent or empty dict (both falsy in the `if conversation:` guard). -/
structure ConversationData where
  id : Option String
  expiration_timestamp : Option String
  origin_type : Option String
deriving DecidableEq, Repr

/-- One entry of a status update's `errors` array (`code`, `title`). -/
structure ErrorData where
  code : Option Nat
  title : Option String
deriving DecidableEq, Repr

/-- The `pricing` object is stored opaquely into metadata; keep it as raw pairs. -/
abbrev PricingData := List (String × String)

/-- A value stored under one key of `Message.metadata` by the status-update path. -/
inductive MetaVal where
  | conv (c : ConversationData)
  | pricing (p : PricingData)
  | errs (es : List ErrorData)
  | other (s : String)
deriving DecidableEq, Repr

/-- `Message.metadata` is a JSON dict; modelled as an association list. -/
abbrev Metadata := List (String × MetaVal)

/-- Python dict assignment `d[k] = v`: overwrite the key in place, or append it. -/
def dictSet (m : Metadata) (k : String) (v : MetaVal) : Metadata :=
  if m.any (fun kv => kv.1 == k) then
    m.map (fun kv => if kv.1 == k then (k, v) else kv)
  else m ++ [(k, v)]

/-- The `Template` columns this core reads. -/
structure TemplateRec where
  name : String
deriving DecidableEq, Repr

/-- The `Message` columns this core reads and writes (src/models/message.py).
Timestamps are epoch integers. -/
structure MessageRec where
  message_id : String
  conversation_id : Option String
  from_number : Option String
  to_number : Option String
  direction : String
  message_type : String
  content : Option String
  template : Option TemplateRec
  template_variables : List (String × String)
  media_file : Option String
  media_id : Option String
  status : String
  metadata : Option Metadata
  delivered_at : Option Int
  read_at : Option Int
  error_code : Option Nat
  error_message : Option String
  timestamp : Option Int
deriving DecidableEq, Repr

/-- The fields of one `value.statuses[]` entry read by `process_status_update`.
`none` models an absent key (and for `conversation`/`pricing` also the falsy empty
dict); `errors` is `none` exactly when the `'errors'` key is absent. -/
structure StatusData where
  id : Option String
  status : Option String
  timestamp : Option String
  recipient_id : Option String
  conversation : Option ConversationData
  pricing : Option PricingData
  errors : Option (List ErrorData)
deriving DecidableEq, Repr

/-- A log line (level only matters for the claims). -/
inductive Log where
  | warning (msg : String)
  | info (msg : String)
deriving DecidableEq, Repr

/-- Decimal value of a digit string. -/
def parse_digits (l : List Char) : Nat :=
  l.foldl (fun acc c => acc * 10 + (c.toNat - 48)) 0

/-- Python `int(s)` on the timestamp strings: an optionally negated run of digits;
`none` models the `ValueError` the inner `try/except` of `process_status_update`
swallows. -/
def py_int (s : String) : Option Int :=
  if s.data ≠ [] ∧ s.data.all Char.isDigit then
    some (Int.ofNat (parse_digits s.data))
  else if s.data.head? = some '-' ∧ s.data.tail ≠ [] ∧ s.data.tail.all Char.isDigit then
    some (-(Int.ofNat (parse_digits s.data.tail)))
  else none

/-- The timestamp block of `process_status_update`: `int(timestamp)` inside a
`try/except (ValueError, TypeError)`; `delivered_at`/`read_at` are set only when
the payload status matches. -/
def status_ts_update (m1 : MessageRec) (status ts_str : String) :
    MessageRec × List Log :=
  match py_int ts_str with
  | some ts =>
    ({ m1 with
        delivered_at := if status = "delivered" then some ts else m1.delivered_at
        read_at := if status = "read" then some ts else m1.read_at },
     ([] : List Log))
  | none => (m1, [Log.warning "Invalid timestamp in status update"])

/-- The conversation block of `process_status_update`: copy a truthy conversation
id onto the message and merge the conversation object under the `"conversation"`
metadata key. -/
def status_conv_update (m2 : MessageRec) : Option ConversationData → MessageRec
  | none => m2
  | some conv =>
    let mc := if truthy conv.id then { m2 with conversation_id := conv.id } else m2
    { mc with metadata := some (dictSet (mc.metadata.getD []) "conversation" (.conv conv)) }

/-- The pricing block of `process_status_update`. -/
def status_pricing_update (m3 : MessageRec) : Option PricingData → MessageRec
  | none => m3
  | some p =>
    { m3 with metadata := some (dictSet (m3.metadata.getD []) "pricing" (.pricing p)) }

/-- The errors block of `process_status_update`: merge the array under the
`"errors"` metadata key and copy the first error's code/title onto the message. -/
def status_errors_update (m4 : MessageRec) : Option (List ErrorData) → MessageRec
  | none => m4
  | some errors =>
    let merged := { m4 with metadata := some (dictSet (m4.metadata.getD []) "errors" (.errs errors)) }
    match errors with
    | [] => merged
    | e :: _ =>
      { merged with error_code := some (e.code.getD 0), error_message := some (e.title.getD "") }

/-- The in-memory message after all the mutation blocks of `process_status_update`. -/
def status_mutations (message : MessageRec) (sd : StatusData) : MessageRec × List Log :=
  let tsres := status_ts_update { message with status := sd.status.getD "" }
      (sd.status.getD "") (sd.timestamp.getD "")
  (status_errors_update
    (status_pricing_update (status_conv_update tsres.1 sd.conversation) sd.pricing)
    sd.errors,
   tsres.2)

/-- `message.save(update_fields=update_fields)` at the end of
`process_status_update`: `status` and `metadata` are always listed; the
timestamps are listed when truthy; `conversation_id` is listed when the
conversation branch ran (`'conversation_id' in locals()`) and the value is
truthy; the error fields are never listed, because the guard tests
`'error_code' in locals()` and no local variable of that name is ever bound.
Unlisted columns keep the stored row's value. -/
def status_save (message m5 : MessageRec) (sd : StatusData) : MessageRec :=
  { message with
    status := m5.status
    metadata := m5.metadata
    delivered_at := if m5.delivered_at.isSome then m5.delivered_at else message.delivered_at
    read_at := if m5.read_at.isSome then m5.read_at else message.read_at
    conversation_id :=
      if sd.conversation.isSome && truthy m5.conversation_id then m5.conversation_id
      else message.conversation_id }

/-- `process_status_update` from src/views/official_api_webhook.py, acting on a
list store of messages. Returns the updated store and the log lines. The status
string from the payload is copied verbatim onto the message with no check against
the previous status. An unknown `message_id` raises `Message.DoesNotExist`, which
the function catches and logs as a warning: the embedding is total and leaves the
store untouched in that case. -/
def process_status_update (store : List MessageRec) (sd : StatusData) :
    List MessageRec × List Log :=
  if !(truthy sd.id && truthy sd.status && truthy sd.timestamp) then
    (store, [.warning "Status data missing required fields"])
  else
    let message_id := sd.id.getD ""
    match store.find? (fun m => m.message_id == message_id) with
    | none =>
        (store, [.warning ("Message not found for status update: " ++ message_id)])
    | some message =>
      let muts := status_mutations message sd
      let saved := status_save message muts.1 sd
      (store.map (fun m => if m.message_id == message_id then saved else m),
       muts.2 ++ [.info ("Updated message status: " ++ message_id ++ " to " ++ sd.status.getD "")])

/-! ## src/models/phone_number.py — outbound dispatch, and
     src/models/message.py — retry_send -/

/-- The `Contact` columns the dispatch path reads. -/
structure ContactRec where
  name : String
  phone_number : String
  whatsapp_chat_id : Option String
deriving DecidableEq, Repr

/-- What the official API does with the one POST `_send_official_api_message`
issues: a response whose JSON body carries the new message id (read as
`response_data.get('messages',[{}])[0].get('id','')`) or an error message, or a
transport/JSON exception. -/
inductive OfficialOutcome where
  | response (status : Nat) (message_id : String) (error_message : String)
  | exc (e : PyExc)

/-- The environment one dispatch runs against: the official API outcome, the WAHA
network, and the Contact table. -/
structure DispatchEnv where
  official : OfficialOutcome
  waha : HttpEnv
  contacts : List ContactRec

/-- `PhoneNumber._send_official_api_message`. Returns the Python outcome (`ok` or
a raised exception), the message instance after its mutations, and the number of
HTTP calls issued. The payload `if/elif/else` chain sits before the `try`, so its
`ValueError` propagates without touching the instance and without a network call;
inside the `try`, a non-200 response or an exception sets status `failed` and
re-raises. The template parameters only shape the request body, which the
environment abstracts. -/
def send_official_api_message (pn : PhoneNumberRec) (inst : MessageRec)
    (message_text template_name media_url media_type : Option String)
    (env : OfficialOutcome) : Except PyExc Unit × MessageRec × Nat :=
  if pn.access_token = "" then
    (.error ⟨"Access token is required to send messages"⟩, inst, 0)
  else if truthy message_text || truthy template_name ||
      (truthy media_url && truthy media_type) then
    match env with
    | .response status mid err =>
      if status = 200 then
        (.ok (), { inst with message_id := mid, status := "sent" }, 1)
      else
        (.error ⟨"Failed to send WhatsApp message: " ++ err⟩,
         { inst with status := "failed" }, 1)
    | .exc e => (.error e, { inst with status := "failed" }, 1)
  else
    (.error ⟨"Either message_text, template_name, or media_url must be provided"⟩,
     inst, 0)

/-- The `response_data.get('success')` check shared by every WAHA send in
`_send_waha_api_message`: truthy success marks the instance sent with the
returned id; anything else sets `failed` and raises. -/
def waha_check (r : WahaResult) (inst : MessageRec) :
    Except PyExc Unit × MessageRec × Nat :=
  if r.success = some true then
    (.ok (), { inst with message_id := r.id.getD "", status := "sent" }, 1)
  else
    (.error ⟨"Failed to send WAHA message: " ++ r.error.getD "Unknown error"⟩,
     { inst with status := "failed" }, 1)

/-- `PhoneNumber._send_waha_api_message`. The contact lookup resolves the chat
id (`contact.whatsapp_chat_id or to_number`; `DoesNotExist` falls back to the
bare number); the `raise ValueError` branches for unsupported content sit inside
the `try`, so they set status `failed` before propagating, and issue no HTTP
call. A Python `None` to_number is modelled as `""` at this boundary. -/
def send_waha_api_message (pn : PhoneNumberRec) (inst : MessageRec)
    (message_text media_url media_type : Option String) (env : DispatchEnv) :
    Except PyExc Unit × MessageRec × Nat :=
  if !(truthy pn.waha_endpoint && truthy pn.waha_username && truthy pn.waha_password) then
    (.error ⟨"WAHA API endpoint, username and password are required"⟩, inst, 0)
  else
    let to_number := inst.to_number.getD ""
    let chat_id :=
      match env.contacts.find? (fun c => c.phone_number == to_number) with
      | some c => if truthy c.whatsapp_chat_id then c.whatsapp_chat_id.getD "" else to_number
      | none => to_number
    let svc := WAHAService.init (pn.waha_endpoint.getD "") (pn.waha_username.getD "")
        (pn.waha_password.getD "") pn.waha_session
    if truthy message_text then
      waha_check (svc.send_text chat_id (message_text.getD "") true env.waha) inst
    else if truthy media_url && truthy media_type then
      if media_type = some "image" then
        waha_check (svc.send_image chat_id (media_url.getD "") none env.waha) inst
      else if media_type = some "document" then
        waha_check (svc.send_document chat_id (media_url.getD "") none env.waha) inst
      else if media_type = some "video" then
        waha_check (svc.send_video chat_id (media_url.getD "") none env.waha) inst
      else if media_type = some "audio" then
        waha_check (svc.send_audio chat_id (media_url.getD "") env.waha) inst
      else
        (.error ⟨"Unsupported media type for WAHA API"⟩,
         { inst with status := "failed" }, 0)
    else
      (.error ⟨"WAHA API only supports text and media messages"⟩,
       { inst with status := "failed" }, 0)

/-- `PhoneNumber._send_message_without_record`: route on `api_type`. -/
def send_message_without_record (pn : PhoneNumberRec) (inst : MessageRec)
    (message_text template_name media_url media_type : Option String)
    (env : DispatchEnv) : Except PyExc Unit × MessageRec × Nat :=
  if pn.api_type == "official" then
    send_official_api_message pn inst message_text template_name media_url media_type
      env.official
  else if pn.api_type == "waha" then
    send_waha_api_message pn inst message_text media_url media_type env
  else
    (.error ⟨"Unsupported API type: " ++ pn.api_type⟩, inst, 0)

/-- The `try/except` closing `process_message_for_sending`: a raised exception
from the send path is swallowed, the message is marked `failed`, and the caller
gets `False`; success yields `True`. -/
def dispatch_finish : Except PyExc Unit × MessageRec × Nat → Bool × MessageRec × Nat
  | (.ok _, m, n) => (true, m, n)
  | (.error _, m, n) => (false, { m with status := "failed" }, n)

/-- `PhoneNumber.process_message_for_sending` (the dispatch entry point): reject
inactive numbers and missing backend credentials with status `failed`; route on
`message_type` (templates fail fast on WAHA before any network call; a missing
template object raises `AttributeError` inside the `try`, which the `except`
converts to `failed`/`False`); every exception from the send path is swallowed,
so the embedding is a total function returning a `Bool`, the final message state,
and the number of HTTP calls issued. -/
def process_message_for_sending (pn : PhoneNumberRec) (msg : MessageRec)
    (env : DispatchEnv) : Bool × MessageRec × Nat :=
  if !pn.is_active then
    (false, { msg with status := "failed" }, 0)
  else if pn.api_type == "official" && (pn.access_token == "") then
    (false, { msg with status := "failed" }, 0)
  else if pn.api_type == "waha" &&
      !(truthy pn.waha_endpoint && truthy pn.waha_username && truthy pn.waha_password) then
    (false, { msg with status := "failed" }, 0)
  else if msg.message_type == "text" then
    dispatch_finish (send_message_without_record pn msg msg.content none none none env)
  else if msg.message_type == "template" then
    if pn.api_type == "waha" then
      (false, { msg with status := "failed" }, 0)
    else
      match msg.template with
      | none => (false, { msg with status := "failed" }, 0)
      | some t =>
        if t.name == "" then
          (false, { msg with status := "failed" }, 0)
        else
          dispatch_finish (send_message_without_record pn msg none (some t.name) none none env)
  else if msg.message_type == "image" || msg.message_type == "audio" ||
      msg.message_type == "video" || msg.message_type == "document" then
    dispatch_finish (send_message_without_record pn msg none none msg.media_file
      (some msg.message_type) env)
  else
    (false, { msg with status := "failed" }, 0)

/-- `Message.retry_send` from src/models/message.py: refuse non-outgoing messages
and messages without a phone number (returning `False`), reset status to
`pending`, and delegate to `process_message_for_sending`. The surrounding
`try/except` would convert an exception into `failed`/`False`, but the callee
swallows every exception itself, so nothing is ever re-raised to the caller. -/
def retry_send (msg : MessageRec) (pn : Option PhoneNumberRec) (env : DispatchEnv) :
    Bool × MessageRec × Nat :=
  if msg.direction ≠ "outgoing" then (false, msg, 0)
  else
    match pn with
    | none => (false, msg, 0)
    | some p => process_message_for_sending p { msg with status := "pending" } env

/-- A fixed message in terminal `read` state (used in the C1 counterexample). -/
def mRead : MessageRec :=
  ⟨"wamid.1", none, some "40777777777", some "40111111111", "outgoing", "text",
   some "hi", none, [], none, none, "read", none, some 90, some 100, none, none, none⟩

/-- A `delivered` status update addressed to `mRead` (used in the C1 counterexample). -/
def sdDelivered : StatusData :=
  ⟨some "wamid.1", some "delivered", some "120", some "40111111111", none, none, none⟩

/-- A fixed active WAHA phone number with full credentials (used in witnesses). -/
def pWaha : PhoneNumberRec :=
  ⟨"40888888888", "waha", none, "", some "http://localhost:3000", some "admin",
   some "secret", "default", true, "verify-456", "hook-waha"⟩

/-- A fixed outgoing failed text message (used in the C2 counterexample/witness). -/
def mOut : MessageRec :=
  ⟨"msg-1", none, some "40777777777", some "40111111111", "outgoing", "text",
   some "hello", none, [], none, none, "failed", none, none, none, none, none, none⟩

/-- A fixed outgoing template message (used in the C3 witness). -/
def mTemplate : MessageRec :=
  ⟨"msg-2", none, some "40888888888", some "40111111111", "outgoing", "template",
   some "welcome", some ⟨"welcome"⟩, [], none, none, "pending", none, none, none,
   none, none, none⟩

/-- A dispatch environment whose network is down in every direction (witnesses). -/
def envFail : DispatchEnv :=
  ⟨.exc ⟨"Connection refused"⟩, fun _ => .exc ⟨"Connection refused"⟩, []⟩

/-! ## src/views/waha_webhook.py — _handle_incoming_message -/

/-- Python `x or y` on plain strings. -/
def strOr (a b : String) : String := if a = "" then b else a

/-- Splitter: cut `l` at each occurrence of `sep`, with explicit fuel so the
recursion is structural. Call with fuel at least `l.length`. -/
def py_split_aux (sep : List Char) : Nat → List Char → List Char → List (List Char)
  | _, [], acc => [acc.reverse]
  | 0, l, acc => [acc.reverse ++ l]
  | fuel+1, a :: t, acc =>
    if sep.isPrefixOf (a :: t) then
      acc.reverse :: py_split_aux sep fuel (List.drop (sep.length - 1) t) []
    else
      py_split_aux sep fuel t (a :: acc)

/-- Python `s.split(sep)` for a nonempty separator. -/
def py_split (s sep : String) : List String :=
  (py_split_aux sep.data s.data.length s.data []).map String.mk

/-- Python `sub in s` for a nonempty needle. -/
def py_contains (s sub : String) : Bool :=
  decide (1 < (py_split s sub).length)

/-- The `media` object of a WAHA message payload. -/
structure WahaMedia where
  url : Option String
  mimetype : Option String
  filename : Option String
deriving DecidableEq, Repr

/-- The `location` object of a WAHA message payload. -/
structure WahaLocation where
  description : Option String
  latitude : Option String
  longitude : Option String
deriving DecidableEq, Repr

/-- The inner `payload` object of a WAHA `message` event, restricted to the keys
`_handle_incoming_message` reads. `none` stands for an absent key (and for
`media`/`location` also for a falsy empty/null value); `fromMe` and `hasMedia`
default to `False` via `.get(key, False)`; the `replyTo` object is read into a
local dict the function never uses afterwards, so it is not modelled. -/
structure WahaPayload where
  id : Option String
  from_ : Option String
  to_ : Option String
  fromMe : Bool
  body : Option String
  hasMedia : Bool
  media : Option WahaMedia
  location : Option WahaLocation
  vCards : List String
  author : Option String
  timestamp : Option Int
deriving DecidableEq, Repr

/-- The `me` object of a WAHA event envelope. -/
structure WahaMe where
  id : Option String
  pushName : Option String
deriving DecidableEq, Repr

/-- A WAHA event envelope, restricted to the keys the webhook reads. -/
structure WahaEnvelope where
  event : Option String
  session : Option String
  payload : Option WahaPayload
  me : Option WahaMe
deriving DecidableEq, Repr

/-- `payload.get('payload', {})`: the empty dict, on which every `.get` yields
its default. -/
def emptyWahaPayload : WahaPayload :=
  ⟨none, none, none, false, none, false, none, none, [], none, none⟩

/-- `payload.get('me', {})`: the empty dict. -/
def emptyWahaMe : WahaMe := ⟨none, none⟩

/-- What the authenticated `requests.get` for a WAHA media file does. -/
inductive DownloadOutcome where
  | response (status : Nat) (content : String)
  | exc (e : PyExc)

/-- The environment a WAHA webhook delivery runs against: the media-file
network, the Contact table, and the current time (`timezone.now()`). -/
structure WahaWebhookEnv where
  download : DownloadOutcome
  contacts : List ContactRec
  now : Int

/-- The media block of `_handle_incoming_message`: entered when
`hasMedia and message_data.get('media')`; the top-level MIME type selects the
message type with fallback to `document`; a download is attempted only when the
URL contains `/api/files/`, and any download failure (including a `None`
`waha_endpoint`, whose `.rstrip` raises `AttributeError`) is wrapped and
re-raised, aborting the whole delivery. Returns
`(message_type, message_body, downloaded content?, filename)`. -/
def waha_media_resolution (pn : PhoneNumberRec) (md : WahaPayload)
    (message_body : String) (download : DownloadOutcome) :
    Except PyExc (String × String × Option String × String) :=
  if md.hasMedia ∧ md.media.isSome then
    let media_info := md.media.getD ⟨none, none, none⟩
    let media_type := (py_split (media_info.mimetype.getD "") "/").headD ""
    let original_url := media_info.url.getD ""
    let filename0 := media_info.filename.getD ""
    (do
      let dlf ←
        if original_url ≠ "" ∧ py_contains original_url "/api/files/" then
          match pn.waha_endpoint with
          | none =>
            throw (⟨"Error downloading media file: AttributeError on waha_endpoint"⟩ : PyExc)
          | some _ => do
            let file_path := (py_split original_url "/api/files/").getLastD ""
            let filename1 :=
              if filename0 = "" then
                if file_path.data.contains '.' then (py_split file_path "/").getLastD ""
                else optBody md.id ++ "." ++
                  (py_split (media_info.mimetype.getD "") "/").getLastD ""
              else filename0
            match download with
            | .response 200 content => pure (some content, filename1)
            | .response st _ =>
              throw (⟨"Error downloading media file: Failed to download media file: " ++
                toString st⟩ : PyExc)
            | .exc e => throw (⟨"Error downloading media file: " ++ e.msg⟩ : PyExc)
        else
          pure ((none : Option String), filename0)
      let filename := dlf.2
      if media_type = "image" then
        pure ("image", strOr message_body "Image received", dlf.1, filename)
      else if media_type = "video" then
        pure ("video", strOr message_body "Video received", dlf.1, filename)
      else if media_type = "audio" then
        pure ("audio", "Audio received", dlf.1, filename)
      else if media_type = "application" ∨ filename ≠ "" then
        pure ("document", strOr filename "Document received", dlf.1, filename)
      else
        pure ("document", "Media of type " ++ optBody media_info.mimetype ++ " received",
          dlf.1, filename))
  else .ok ("text", message_body, none, "")

/-- The location and vCards overrides of `_handle_incoming_message`, applied after
the media block. -/
def waha_type_overrides (md : WahaPayload) (tb : String × String) : String × String :=
  let tb1 :=
    match md.location with
    | none => tb
    | some loc =>
      ("location", "Location: " ++ loc.description.getD "" ++ " (" ++
        loc.latitude.getD "" ++ ", " ++ loc.longitude.getD "" ++ ")")
  if md.vCards.length > 0 then
    ("interactive", "Contact card received: " ++ toString md.vCards.length ++ " contact(s)")
  else tb1

/-- Contact resolution in `_handle_incoming_message`: strip a `@c.us`-style
suffix before lookup; create a contact only for incoming messages (name from
`author` with the bare number as fallback; `Contact.save` normalizes the
number). A `None` from-number makes `'@' in from_number` raise `TypeError`,
aborting the delivery. Returns `(resolved contact, newly created contact)`. -/
def waha_contact_resolution (contacts : List ContactRec) (direction : String)
    (md : WahaPayload) (from_number : Option String) :
    Except PyExc (Option ContactRec × Option ContactRec) :=
  match from_number with
  | none => .error ⟨"TypeError: argument of type NoneType is not iterable"⟩
  | some fn =>
    let clean := (py_split fn "@").headD fn
    match contacts.find? (fun c => c.phone_number == clean) with
    | some c => .ok (some c, none)
    | none =>
      if direction = "incoming" then
        let contact_name := if truthy md.author then md.author.getD "" else clean
        let c : ContactRec :=
          ⟨contact_name, (normalize_phone_number (some clean)).getD clean, none⟩
        .ok (some c, some c)
      else .ok (none, none)

/-- `_handle_incoming_message` from src/views/waha_webhook.py. Direction comes
from `fromMe`; for outgoing messages from/to are swapped relative to the raw
fields, with `to` falling back to `me.id` (Python `or`). A `.error` result
models the `except` branch (HTTP 500, nothing persisted); `.ok` carries the
persisted message and the contact created, if any. A `None` message id is
modelled as the `IntegrityError` the NOT NULL column raises at `create`;
`raw_message` (a verbatim `json.dumps` of the payload) is not modelled. The
timestamp conversion's `except (ValueError, TypeError)` fallback to
`timezone.now()` cannot fire for an integer-or-absent timestamp, so the falsy
check alone decides it. -/
def _handle_incoming_message (payload : WahaEnvelope) (pn : PhoneNumberRec)
    (env : WahaWebhookEnv) : Except PyExc (MessageRec × Option ContactRec) := do
  let md := payload.payload.getD emptyWahaPayload
  let direction := if md.fromMe then "outgoing" else "incoming"
  let nums :=
    if direction = "outgoing" then
      (orStr md.to_ ((payload.me.getD emptyWahaMe).id), md.from_)
    else
      (md.from_, orStr md.to_ ((payload.me.getD emptyWahaMe).id))
  let tbdf ← waha_media_resolution pn md (md.body.getD "") env.download
  let tb := waha_type_overrides md (tbdf.1, tbdf.2.1)
  let cres ← waha_contact_resolution env.contacts direction md nums.1
  let ts := if md.timestamp.getD 0 ≠ 0 then md.timestamp.getD 0 else env.now
  let mid ←
    match md.id with
    | some m => (pure m : Except PyExc String)
    | none => throw ⟨"IntegrityError: NOT NULL constraint failed: message_id"⟩
  let message : MessageRec :=
    { message_id := mid, conversation_id := none, from_number := nums.1,
      to_number := nums.2, direction := direction, message_type := tb.1,
      content := some tb.2, template := none, template_variables := [],
      media_file := none, media_id := none,
      status := if direction = "incoming" then "received" else "sent",
      metadata := none, delivered_at := none, read_at := none, error_code := none,
      error_message := none, timestamp := some ts }
  let message :=
    if tbdf.2.2.1.isSome then { message with media_file := some tbdf.2.2.2 } else message
  pure (message, cres.2)

/-- A fixed WAHA `message` event with `fromMe=true` (used in the C4 witness). -/
def wahaDelivery : WahaEnvelope :=
  ⟨some "message", some "default",
   some ⟨some "false_40111@c.us_AAA", some "40888888888@c.us", some "40111111111@c.us",
         true, some "hello", false, none, none, [], none, some 1666943582⟩,
   some ⟨some "40888888888@c.us", some "Me"⟩⟩

/-- A fixed WAHA webhook environment (used in the C4 witness). -/
def wahaEnv0 : WahaWebhookEnv := ⟨.response 200 "bytes", [], 1700000000⟩

/-- The message `_handle_incoming_message` persists for `wahaDelivery`. -/
def mDelivered : MessageRec :=
  ⟨"false_40111@c.us_AAA", none, some "40111111111@c.us", some "40888888888@c.us",
   "outgoing", "text", some "hello", none, [], none, none, "sent", none, none,
   none, none, none, some 1666943582⟩

end Whatsapp

namespace Whatsapp

/-! ## Theorems for src/models/contact.py -/

theorem normalize_some_nonempty (s : String) (h : s ≠ "") :
    normalize_phone_number (some s) = some (String.mk (s.data.filter Char.isDigit)) := by
  simp [normalize_phone_number, h]

theorem filter_digits_self (l : List Char) :
    (l.filter Char.isDigit).filter Char.isDigit = l.filter Char.isDigit := by
  apply List.filter_eq_self.mpr
  intro c hc
  exact List.of_mem_filter hc

/-- C5: phone-number normalization is idempotent, and
`normalize_phone_number "+40 777 777 777" = "40777777777"`. -/
theorem normalize_phone_number_idempotent :
    (∀ x : String,
      normalize_phone_number (normalize_phone_number (some x)) =
        normalize_phone_number (some x)) ∧
    normalize_phone_number (some "+40 777 777 777") = some "40777777777" := by
  constructor
  · intro x
    by_cases hx : x = ""
    · subst hx; rfl
    · rw [normalize_some_nonempty x hx]
      by_cases hy : String.mk (x.data.filter Char.isDigit) = ""
      · rw [hy]; rfl
      · rw [normalize_some_nonempty _ hy]
        have : (String.mk (x.data.filter Char.isDigit)).data = x.data.filter Char.isDigit := rfl
        rw [this, filter_digits_self]
  · decide

/-- C6: `validate_phone_number` succeeds exactly on the all-digit strings whose
length is between 7 and 15 inclusive; every other string raises `ValidationError`. -/
theorem validate_phone_number_iff (s : String) :
    validate_phone_number s = .ok () ↔
      (s.data.all Char.isDigit = true ∧ 7 ≤ s.length ∧ s.length ≤ 15) := by
  unfold validate_phone_number str_isdigit
  split_ifs with h1 h2 h3
  · constructor
    · intro h; cases h
    · rintro ⟨hd, h7, h15⟩
      simp only [Bool.not_eq_true', Bool.and_eq_false_iff, decide_eq_false_iff_not] at h1
      rcases h1 with h1 | h1
      · omega
      · rw [hd] at h1; cases h1
  · constructor
    · intro h; cases h
    · rintro ⟨hd, h7, h15⟩
      simp only [Bool.or_eq_true, decide_eq_true_eq] at h2
      omega
  · constructor
    · intro h; cases h
    · rintro ⟨hd, h7, h15⟩; omega
  · constructor
    · intro _
      simp only [Bool.not_eq_true', Bool.and_eq_false_iff, decide_eq_false_iff_not,
        not_or] at h1
      simp only [Bool.or_eq_true, decide_eq_true_eq, not_or, not_lt] at h2
      push_neg at h1
      exact ⟨eq_true_of_ne_false h1.2, h2.1, h2.2⟩
    · intro _; rfl

/-- C10: `normalize_phone_number` returns falsy inputs unchanged: Python `None`
maps to `None` and the empty string maps to the empty string. -/
theorem normalize_phone_number_falsy :
    normalize_phone_number none = none ∧
    normalize_phone_number (some "") = some "" := by
  constructor <;> rfl

/-! ## Theorems for src/services/waha.py -/

theorem make_request_failure (svc : WAHAService) (path method : String)
    (data : Option (List (String × JsonVal))) (env : HttpEnv)
    (henv : ∀ req, failure_outcome (env req)) :
    uniform_failure (svc.make_request path method data env) := by
  unfold WAHAService.make_request uniform_failure
  split
  · generalize hreq : env ⟨svc.request_url path, method, data⟩ = out
    have hf := henv ⟨svc.request_url path, method, data⟩
    rw [hreq] at hf
    cases out with
    | exc e => exact ⟨rfl, rfl⟩
    | response status text json =>
      simp only [failure_outcome] at hf
      have hst : ¬ (status = 200 ∨ status = 201) := by omega
      dsimp only
      rw [if_neg hst]
      exact ⟨rfl, rfl⟩
  · exact ⟨rfl, rfl⟩

/-- C9: for every `WAHAService` request (`send_text`, `send_image`,
`send_document`, `send_video`, `send_audio`, `configure_webhooks`), when the
network yields a non-2xx response or a transport exception, the returned value
has the uniform shape `{"success": False, "error": <reason>}`; the embedded
client is a total function, so no exception propagates to the caller. -/
theorem waha_client_failure_shape (svc : WAHAService) (env : HttpEnv)
    (chat_id text iurl durl vurl aurl wurl : String) (lp : Bool)
    (caption filename : Option String) (events : Option (List String))
    (henv : ∀ req, failure_outcome (env req)) :
    uniform_failure (svc.send_text chat_id text lp env) ∧
    uniform_failure (svc.send_image chat_id iurl caption env) ∧
    uniform_failure (svc.send_document chat_id durl filename env) ∧
    uniform_failure (svc.send_video chat_id vurl caption env) ∧
    uniform_failure (svc.send_audio chat_id aurl env) ∧
    uniform_failure (svc.configure_webhooks wurl events env) := by
  refine ⟨?_, ?_, ?_, ?_, ?_, ?_⟩ <;>
    exact make_request_failure _ _ _ _ _ henv

/-- Witness for C9 at a concrete service, call, and downed network. -/
theorem waha_client_failure_shape_witness :
    uniform_failure (svc0.send_text "+40 777 777 777" "hello" true envDown) :=
  (waha_client_failure_shape svc0 envDown "+40 777 777 777" "hello" "i" "d" "v" "a" "w"
    true none none none (fun _ => True.intro)).1

/-! ## Theorems for src/views/official_api_webhook.py (GET handshake) -/

/-- C7: when the webhook token resolves to a stored official `PhoneNumber`, the
GET handler answers 200 echoing `hub.challenge` if and only if `hub.verify_token`
matches the record's `verify_token` and `hub.mode` is `"subscribe"`; in every
other case it answers 403. -/
theorem webhook_get_handshake (store : List PhoneNumberRec) (tok : String)
    (params : GetParams) (pn : PhoneNumberRec)
    (hfind : find_phone_by_webhook_token store tok = some pn) :
    ((webhook_get store tok params).status = 200 ∧
       (webhook_get store tok params).body = optBody params.challenge ↔
     params.verify_token = some pn.verify_token ∧ params.mode = some "subscribe") ∧
    (¬ (params.verify_token = some pn.verify_token ∧ params.mode = some "subscribe") →
       (webhook_get store tok params).status = 403) := by
  unfold webhook_get
  rw [hfind]
  dsimp only
  by_cases hv : params.verify_token = some pn.verify_token
  · rw [if_neg (not_not_intro hv)]
    by_cases hm : params.mode = some "subscribe"
    · rw [if_pos hm]
      exact ⟨by simp [hv, hm], fun h => absurd ⟨hv, hm⟩ h⟩
    · rw [if_neg hm]
      constructor
      · constructor
        · rintro ⟨h200, -⟩; cases h200
        · rintro ⟨-, hm'⟩; exact absurd hm' hm
      · intro _; rfl
  · rw [if_pos hv]
    constructor
    · constructor
      · rintro ⟨h200, -⟩; cases h200
      · rintro ⟨hv', -⟩; exact absurd hv' hv
    · intro _; rfl

/-- Witness for C7: the concrete record `pn0`, a matching verify token and
subscribe mode echo the challenge with status 200. -/
theorem webhook_get_handshake_witness :
    (webhook_get [pn0] "hook-xyz"
        ⟨some "subscribe", some "verify-123", some "challenge-42"⟩).status = 200 ∧
    (webhook_get [pn0] "hook-xyz"
        ⟨some "subscribe", some "verify-123", some "challenge-42"⟩).body =
      optBody (some "challenge-42") :=
  (webhook_get_handshake [pn0] "hook-xyz"
      ⟨some "subscribe", some "verify-123", some "challenge-42"⟩ pn0 (by rfl)).1.mpr
    ⟨rfl, rfl⟩

/-! ## Theorems for process_status_update -/

theorem status_ts_update_status (m : MessageRec) (st ts : String) :
    (status_ts_update m st ts).1.status = m.status := by
  rcases hp : py_int ts with - | v <;> simp [status_ts_update, hp]

theorem status_ts_update_read_at (m : MessageRec) (st ts : String) (h : st ≠ "read") :
    (status_ts_update m st ts).1.read_at = m.read_at := by
  rcases hp : py_int ts with - | v <;> simp [status_ts_update, hp, h]

theorem status_conv_update_status (m : MessageRec) (c : Option ConversationData) :
    (status_conv_update m c).status = m.status := by
  cases c with
  | none => rfl
  | some conv =>
    unfold status_conv_update
    dsimp only
    split <;> rfl

theorem status_conv_update_read_at (m : MessageRec) (c : Option ConversationData) :
    (status_conv_update m c).read_at = m.read_at := by
  cases c with
  | none => rfl
  | some conv =>
    unfold status_conv_update
    dsimp only
    split <;> rfl

theorem status_pricing_update_status (m : MessageRec) (p : Option PricingData) :
    (status_pricing_update m p).status = m.status := by
  cases p <;> rfl

theorem status_pricing_update_read_at (m : MessageRec) (p : Option PricingData) :
    (status_pricing_update m p).read_at = m.read_at := by
  cases p <;> rfl

theorem status_errors_update_status (m : MessageRec) (e : Option (List ErrorData)) :
    (status_errors_update m e).status = m.status := by
  cases e with
  | none => rfl
  | some l => cases l <;> rfl

theorem status_errors_update_read_at (m : MessageRec) (e : Option (List ErrorData)) :
    (status_errors_update m e).read_at = m.read_at := by
  cases e with
  | none => rfl
  | some l => cases l <;> rfl

theorem status_mutations_status (m : MessageRec) (sd : StatusData) :
    (status_mutations m sd).1.status = sd.status.getD "" := by
  unfold status_mutations
  dsimp only
  rw [status_errors_update_status, status_pricing_update_status, status_conv_update_status,
    status_ts_update_status]

theorem status_mutations_read_at (m : MessageRec) (sd : StatusData)
    (h : sd.status.getD "" ≠ "read") :
    (status_mutations m sd).1.read_at = m.read_at := by
  unfold status_mutations
  dsimp only
  rw [status_errors_update_read_at, status_pricing_update_read_at, status_conv_update_read_at,
    status_ts_update_read_at _ _ _ h]

/-- C8: a status update whose `message_id` matches no stored message is a no-op:
the store is returned unchanged and the event is logged as a warning. The
embedded function is total, so no exception propagates (in the source,
`Message.DoesNotExist` is caught by the surrounding `try/except`). -/
theorem status_update_unknown_id_noop (store : List MessageRec) (sd : StatusData)
    (hid : truthy sd.id = true) (hst : truthy sd.status = true)
    (hts : truthy sd.timestamp = true)
    (hnone : ∀ m ∈ store, m.message_id ≠ sd.id.getD "") :
    process_status_update store sd =
      (store, [.warning ("Message not found for status update: " ++ sd.id.getD "")]) := by
  unfold process_status_update
  rw [hid, hst, hts]
  have hfind : store.find? (fun m => m.message_id == sd.id.getD "") = none := by
    rw [List.find?_eq_none]
    intro m hm
    simpa using hnone m hm
  dsimp only
  rw [hfind]
  simp

/-- Witness for C8: a concrete store holding only `mRead` and a status update for
a different message id leave the store untouched and log a warning. -/
theorem status_update_unknown_id_noop_witness :
    process_status_update [mRead] ⟨some "wamid.unknown", some "delivered", some "120",
        none, none, none, none⟩ =
      ([mRead], [.warning ("Message not found for status update: " ++ "wamid.unknown")]) :=
  status_update_unknown_id_noop [mRead] _ rfl rfl rfl
    (by intro m hm; simp [mRead] at hm; subst hm; simp [mRead])

/-- C1 counterexample: the message `mRead` has status `read`, yet processing the
`delivered` status update `sdDelivered` for its message id sets the stored status
back to `delivered` — the claimed monotonicity does not hold in the code, which
copies the payload status verbatim. -/
theorem status_update_reverts_read_to_delivered :
    mRead.status = "read" ∧
    (process_status_update [mRead] sdDelivered).1.map MessageRec.status = ["delivered"] := by
  constructor
  · rfl
  · rfl

/-- C1 (amended): `process_status_update` copies the payload status verbatim with
no monotonicity check, so a `delivered` update arriving after a message reached
`read` sets its status back to `delivered`; `read_at` is left unchanged. -/
theorem status_update_delivered_overwrites_read (m : MessageRec) (sd : StatusData)
    (_hread : m.status = "read") (hid : sd.id = some m.message_id)
    (hmid : m.message_id ≠ "") (hst : sd.status = some "delivered")
    (hts : truthy sd.timestamp = true) :
    ∃ m', (process_status_update [m] sd).1 = [m'] ∧
      m'.status = "delivered" ∧ m'.read_at = m.read_at := by
  have htr : truthy sd.id = true := by rw [hid]; simp [truthy, hmid]
  have hstr : truthy sd.status = true := by rw [hst]; simp [truthy]
  have hid' : sd.id.getD "" = m.message_id := by rw [hid]; rfl
  unfold process_status_update
  rw [htr, hstr, hts]
  dsimp only
  rw [hid']
  have hfind : [m].find? (fun x => x.message_id == m.message_id) = some m := by
    simp [List.find?]
  rw [hfind]
  dsimp only
  refine ⟨status_save m (status_mutations m sd).1 sd, by simp, ?_, ?_⟩
  · have hs := status_mutations_status m sd
    rw [hst] at hs
    simp [status_save, hs]
  · have hr := status_mutations_read_at m sd (by rw [hst]; simp)
    simp [status_save, hr]

/-- Witness for C1 (amended) at the concrete `mRead` / `sdDelivered` pair. -/
theorem status_update_delivered_overwrites_read_witness :
    ∃ m', (process_status_update [mRead] sdDelivered).1 = [m'] ∧
      m'.status = "delivered" ∧ m'.read_at = mRead.read_at :=
  status_update_delivered_overwrites_read mRead sdDelivered rfl rfl
    (by simp [mRead]) rfl rfl

/-! ## Theorems for dispatch (process_message_for_sending / retry_send) -/

theorem dispatch_finish_error (x : Except PyExc Unit × MessageRec × Nat) (e : PyExc)
    (h : x.1 = .error e) :
    (dispatch_finish x).1 = false ∧ (dispatch_finish x).2.1.status = "failed" := by
  obtain ⟨r, m, n⟩ := x
  cases r with
  | ok u => simp at h
  | error e2 => exact ⟨rfl, rfl⟩

/-- C3: dispatch of a template message through a WAHA phone number always fails
fast, before any credential-specific send runs: the result is `False`, the
message status becomes `failed`, and zero HTTP calls are issued to any backend.
The embedded `process_message_for_sending` is a total function into
`Bool × MessageRec × Nat` — every exception from the send path is caught — so
dispatch returns a boolean for every `(api_type, message_type)` combination and
never raises. -/
theorem dispatch_waha_template_fails_fast (pn : PhoneNumberRec) (msg : MessageRec)
    (env : DispatchEnv) (hapi : pn.api_type = "waha")
    (htype : msg.message_type = "template") :
    process_message_for_sending pn msg env = (false, { msg with status := "failed" }, 0) := by
  unfold process_message_for_sending
  rw [hapi, htype]
  split_ifs <;> simp_all

/-- Witness for C3: the concrete WAHA number `pWaha` and template message
`mTemplate` against a downed network. -/
theorem dispatch_waha_template_fails_fast_witness :
    process_message_for_sending pWaha mTemplate envFail =
      (false, { mTemplate with status := "failed" }, 0) :=
  dispatch_waha_template_fails_fast pWaha mTemplate envFail rfl rfl

/-- C2 counterexample: with the official backend raising a transport exception,
the underlying send path (`_send_message_without_record`) does raise, yet
`retry_send` returns `False` normally — the exception is swallowed (inside
`process_message_for_sending`), not re-raised to the caller as claimed. -/
theorem retry_send_does_not_reraise :
    (send_message_without_record pn0 { mOut with status := "pending" } mOut.content
        none none none envFail).1 = .error ⟨"Connection refused"⟩ ∧
    retry_send mOut (some pn0) envFail = (false, { mOut with status := "failed" }, 1) :=
  ⟨rfl, rfl⟩

/-- C2 (amended): `Message.retry_send` swallows failures exactly like the
automatic first-send path: when the underlying send path raises, the exception is
caught (by `process_message_for_sending`), the message is marked `failed`, and
`retry_send` returns `False`; neither path raises to its caller — both embeddings
are total functions into `Bool × MessageRec × Nat`. -/
theorem retry_send_swallows_send_exception (p : PhoneNumberRec) (msg : MessageRec)
    (env : DispatchEnv) (e : PyExc)
    (hdir : msg.direction = "outgoing")
    (htext : msg.message_type = "text")
    (hact : p.is_active = true)
    (hapi : p.api_type = "official")
    (htok : ¬ p.access_token = "")
    (hsend : (send_message_without_record p { msg with status := "pending" } msg.content
        none none none env).1 = .error e) :
    (retry_send msg (some p) env).1 = false ∧
    (retry_send msg (some p) env).2.1.status = "failed" := by
  have hretry : retry_send msg (some p) env =
      process_message_for_sending p { msg with status := "pending" } env := by
    unfold retry_send
    rw [if_neg (not_not_intro hdir)]
  rw [hretry]
  unfold process_message_for_sending
  rw [hact, hapi]
  have h2 : (p.access_token == "") = false := by
    simp [htok]
  have h3 : (("official" : String) == "waha") = false := by decide
  dsimp only
  rw [h2, h3]
  simp only [Bool.not_true, Bool.false_eq_true, if_false, Bool.and_false, beq_self_eq_true,
    Bool.true_and, Bool.false_and]
  rw [htext] at hsend ⊢
  simp only [beq_self_eq_true, if_true]
  exact dispatch_finish_error _ e hsend

/-- Witness for C2 (amended) at the concrete `pn0` / `mOut` pair with a downed
network. -/
theorem retry_send_swallows_send_exception_witness :
    (retry_send mOut (some pn0) envFail).1 = false ∧
    (retry_send mOut (some pn0) envFail).2.1.status = "failed" :=
  retry_send_swallows_send_exception pn0 mOut envFail ⟨"Connection refused"⟩
    rfl rfl rfl rfl (by simp [pn0]) rfl

/-! ## Theorems for the WAHA webhook handler -/

theorem except_bind_ok {α β : Type} (x : Except PyExc α) (f : α → Except PyExc β) (b : β)
    (h : x >>= f = .ok b) : ∃ a, x = .ok a ∧ f a = .ok b := by
  cases x with
  | error e => simp [Bind.bind, Except.bind] at h
  | ok a => exact ⟨a, rfl, by simpa [Bind.bind, Except.bind] using h⟩

/-- C4: every WAHA `message` event whose payload has `fromMe=true` and which
persists a message persists it with direction `outgoing`, status `sent`, and
from/to swapped relative to the raw payload fields: `from_number` is the raw
`to` field under Python `or` fallback to `me.id` (so it falls back whenever `to`
is absent or empty), and `to_number` is the raw `from` field. -/
theorem waha_fromMe_outgoing_swaps (payload : WahaEnvelope) (pn : PhoneNumberRec)
    (env : WahaWebhookEnv) (m : MessageRec) (c : Option ContactRec)
    (hMe : (payload.payload.getD emptyWahaPayload).fromMe = true)
    (hok : _handle_incoming_message payload pn env = .ok (m, c)) :
    m.direction = "outgoing" ∧ m.status = "sent" ∧
    m.from_number = orStr (payload.payload.getD emptyWahaPayload).to_
      ((payload.me.getD emptyWahaMe).id) ∧
    m.to_number = (payload.payload.getD emptyWahaPayload).from_ := by
  unfold _handle_incoming_message at hok
  dsimp only at hok
  rw [hMe] at hok
  simp only [if_true] at hok
  obtain ⟨tbdf, hA, hok⟩ := except_bind_ok _ _ _ hok
  obtain ⟨cres, hB, hok⟩ := except_bind_ok _ _ _ hok
  rcases hid : (payload.payload.getD emptyWahaPayload).id with - | mid
  · rw [hid] at hok
    obtain ⟨a, ha, -⟩ := except_bind_ok _ _ _ hok
    exact Except.noConfusion ha
  · rw [hid] at hok
    obtain ⟨y, hy, hok⟩ := except_bind_ok _ _ _ hok
    injection hok with h
    injection h with h1 h2
    subst h1
    split <;> exact ⟨rfl, rfl, rfl, rfl⟩

/-- Witness for C4: the concrete delivery `wahaDelivery` against `wahaEnv0`
persists `mDelivered`, which the theorem shows is outgoing, sent, and swapped. -/
theorem waha_fromMe_outgoing_swaps_witness :
    mDelivered.direction = "outgoing" ∧ mDelivered.status = "sent" ∧
    mDelivered.from_number = orStr (wahaDelivery.payload.getD emptyWahaPayload).to_
      ((wahaDelivery.me.getD emptyWahaMe).id) ∧
    mDelivered.to_number = (wahaDelivery.payload.getD emptyWahaPayload).from_ :=
  waha_fromMe_outgoing_swaps wahaDelivery pWaha wahaEnv0 mDelivered none rfl rfl

end Whatsapp
